import Mathlib

/-!
Shallow embedding of `src/orchestrator.py` (Playerwoods/ai-orchestrator).

The orchestrator manipulates Python dicts whose values are strings, numbers,
booleans, lists and nested dicts.  We model such values by the inductive type
`Val` and dicts by insertion-ordered association lists with Python assignment
semantics (`setD` replaces in place, `updateD` folds assignments left to
right).  Physical timestamps (`datetime.now().isoformat()`) are modelled by
the constant string `""`; they carry no control-flow significance.  A Python
float literal (`0.85`) is modelled as an exact rational; it is never rendered
or branched on in any reachable path of the claims.
-/

/-- Model of a Python value as stored in the orchestrator's dicts. -/
inductive Val where
  | str (s : String)
  | int (n : Int)
  | rat (q : Rat)
  | bool (b : Bool)
  | list (xs : List Val)
  | dict (fs : List (String × Val))

/-- A Python dict with string keys: insertion-ordered association list. -/
abbrev Dict := List (String × Val)

/-- Python truthiness (`bool(v)`): empty strings, zero, empty containers and
`False` are falsy. -/
def Val.truthy : Val → Bool
  | .str s => !(s == "")
  | .int n => !(n == 0)
  | .rat q => !(q.num == 0)
  | .bool b => b
  | .list xs => !xs.isEmpty
  | .dict fs => !fs.isEmpty

/-- Truthiness of `d.get(k)` (missing key yields `None`, which is falsy). -/
def optTruthy : Option Val → Bool
  | Option.none => false
  | some v => v.truthy

/-- `d.get(k)` / `d[k]`: first (unique) binding of the key. -/
def lookupD : Dict → String → Option Val
  | [], _ => Option.none
  | (k', v) :: rest, k => if k' == k then some v else lookupD rest k

/-- `d.get(k, default)`. -/
def getD (d : Dict) (k : String) (dflt : Val) : Val :=
  (lookupD d k).getD dflt

/-- `d[k] = v`: replace the binding in place, else append at the end
(Python dicts preserve insertion order). -/
def setD : Dict → String → Val → Dict
  | [], k, v => [(k, v)]
  | (k', v') :: rest, k, v =>
      if k' == k then (k', v) :: rest else (k', v') :: setD rest k v

/-- `d.update(e)`: assign every binding of `e` into `d`, left to right. -/
def updateD (d e : Dict) : Dict :=
  e.foldl (fun acc p => setD acc p.1 p.2) d

/-- `k in d`. -/
def hasKey (d : Dict) (k : String) : Bool :=
  (lookupD d k).isSome

/-- Does `sub` start the character list `s`? -/
def charsStartWith : List Char → List Char → Bool
  | _, [] => true
  | [], _ :: _ => false
  | c :: cs, d :: ds => c == d && charsStartWith cs ds

/-- Does `sub` occur contiguously inside `s`? -/
def charsHaveSub : List Char → List Char → Bool
  | [], sub => sub.isEmpty
  | c :: tail, sub => charsStartWith (c :: tail) sub || charsHaveSub tail sub

/-- Python `sub in s` on strings (contiguous substring). -/
def strContains (s sub : String) : Bool :=
  charsHaveSub s.data sub.data

/-- Python `s.lower()` (ASCII-adequate). -/
def strLower (s : String) : String :=
  String.mk (s.data.map Char.toLower)

/-- Python `s.strip()`: drop leading and trailing whitespace. -/
def pyStrip (s : String) : String :=
  String.mk (((s.data.dropWhile Char.isWhitespace).reverse.dropWhile Char.isWhitespace).reverse)

/-- Helper for `pySplit`: accumulate the current word (reversed) while
scanning. -/
def wordsAux : List Char → List Char → List String
  | [], acc => if acc.isEmpty then [] else [String.mk acc.reverse]
  | c :: rest, acc =>
      if c.isWhitespace then
        (if acc.isEmpty then [] else [String.mk acc.reverse]) ++ wordsAux rest []
      else wordsAux rest (c :: acc)

/-- Python `s.split()` with no separator: split on whitespace runs, no empty
words. -/
def pySplit (s : String) : List String :=
  wordsAux s.data []

mutual
/-- Python `repr` of a value (numeric formatting abstracted; only substring
membership of key names in rendered dicts is ever consumed by the source). -/
def pyRepr : Val → String
  | .str s => "'" ++ s ++ "'"
  | .int n => toString n
  | .rat q => toString q.num ++ "/" ++ toString q.den
  | .bool b => if b then "True" else "False"
  | .list xs => "[" ++ pyReprList xs ++ "]"
  | .dict fs => "\x7b" ++ pyReprFields fs ++ "\x7d"

/-- Comma-separated reprs of list elements. -/
def pyReprList : List Val → String
  | [] => ""
  | [v] => pyRepr v
  | v :: rest => pyRepr v ++ ", " ++ pyReprList rest

/-- Comma-separated `'key': value` reprs of dict entries. -/
def pyReprFields : List (String × Val) → String
  | [] => ""
  | [(k, v)] => "'" ++ k ++ "': " ++ pyRepr v
  | (k, v) :: rest => "'" ++ k ++ "': " ++ pyRepr v ++ ", " ++ pyReprFields rest
end

/-- Python `str(v)`: identity on strings, `repr` rendering otherwise. -/
def pyStr : Val → String
  | .str s => s
  | v => pyRepr v

/-!
## Handlers (source lines 8-175)

`BaseAgent.execute` wraps the agent-specific `_execute_task` in a failure
boundary.  We model an agent by its class name, its `can_handle` predicate,
and its `_execute_task` body as a function returning `Except String Dict`:
`.error msg` models an exception raised with text `msg` (the simulated
`asyncio.sleep` calls are pure delays with no semantic content).
-/

/-- One registered handler: class name, `can_handle`, and `_execute_task`. -/
structure Agent where
  className : String
  canHandle : String → Bool
  run : Dict → Except String Dict

/-- The orchestrator's `self.agents` dict: names bound to handler instances,
in registration (insertion) order. -/
abbrev Registry := List (String × Agent)

/-- `can_handle(task_type)` applied to a raw dict value: every concrete
handler compares with a string literal, so any non-string task type fails. -/
def valCanHandle (a : Agent) (v : Val) : Bool :=
  match v with
  | .str s => a.canHandle s
  | _ => false

/-- `BaseAgent._generate_default_summary` (source lines 46-49). -/
def defaultSummary (task : Dict) : String :=
  "Successfully completed " ++ pyStr (getD task "task_type" (.str "task")) ++ " task"

/-- `BaseAgent.execute` (source lines 21-44): run `_execute_task`, patch in a
default summary and status when the result lacks truthy ones, and convert any
raised exception to a structured error dict (`details`, the traceback, is
modelled by the fault text). -/
def agentExecute (a : Agent) (task : Dict) : Dict :=
  match a.run task with
  | .ok result =>
      let result :=
        if optTruthy (lookupD result "summary") then result
        else setD result "summary" (.str (defaultSummary task))
      if optTruthy (lookupD result "status") then result
      else setD result "status" (.str "completed")
  | .error e =>
      [("status", .str "error"),
       ("summary", .str ("Error in " ++ a.className ++ ": " ++ e)),
       ("message", .str e),
       ("details", .str e)]

/-- `SpotlightAgent._execute_task` (source lines 52-63). -/
def spotlightRun (task : Dict) : Except String Dict :=
  let query := getD task "query" (.str "")
  .ok [("summary", .str ("Searched system for '" ++ pyStr query ++ "' and found 5 relevant items")),
       ("results", .dict [("items_found", .int 5), ("query", query)])]

/-- `FileAgent._execute_task` (source lines 66-92). -/
def fileRun (task : Dict) : Except String Dict :=
  let files := getD task "files" (.list [])
  if !files.truthy then
    .ok [("status", .str "error"), ("summary", .str "No files provided for processing")]
  else
    let file_names : List Val := match files with | .list xs => xs | v => [v]
    let n := file_names.length
    .ok [("summary", .str ("Successfully processed " ++ toString n ++ " file(s)")),
         ("results", .dict
            [("extracted_text", .str ("Extracted content from " ++ toString n ++ " file(s)")),
             ("file_count", .int n),
             ("files_processed", .list file_names)])]

/-- `ResearchAgent._execute_task` (source lines 95-117). -/
def researchRun (task : Dict) : Except String Dict :=
  let query :=
    match lookupD task "query" with
    | some v => v
    | Option.none => getD task "text_content" (.str "")
  let sources : List Val := [.str "Source 1", .str "Source 2", .str "Source 3"]
  let key_findings : List Val :=
    [.str "AI automation market growing at 30% CAGR",
     .str "Key players include Microsoft, Google, Amazon",
     .str "Market size expected to reach $50B by 2025"]
  .ok [("summary", .str ("Researched '" ++ pyStr query ++ "' and found " ++ toString sources.length
          ++ " relevant sources with key market insights")),
       ("results", .dict [("sources", .list sources), ("key_findings", .list key_findings)])]

/-- `AnalysisAgent._execute_task` (source lines 120-149).  A non-string truthy
`text_content` would raise `AttributeError` at `.split()` / `.lower()`; the
raise is caught by `BaseAgent.execute`. -/
def analysisRun (task : Dict) : Except String Dict :=
  let text_content :=
    match lookupD task "text_content" with
    | some v => v
    | Option.none => getD task "query" (.str "")
  if !text_content.truthy then
    .ok [("status", .str "error"), ("summary", .str "No content provided for analysis")]
  else
    match text_content with
    | .str tc =>
        let summary :=
          if strContains (pyStr (Val.dict task)) "key_findings" then
            "Created comprehensive competitive analysis report based on research findings. The AI automation market shows strong growth with major tech companies leading innovation."
          else
            "Analyzed content (" ++ toString (pySplit tc).length ++ " words) and identified key themes and insights"
        .ok [("summary", .str summary),
             ("results", .dict
                [("analysis_type",
                  .str (if strContains (strLower tc) "research" then "competitive_analysis"
                        else "general_analysis")),
                 ("confidence", .rat (0.85 : Rat))])]
    | _ => .error "AttributeError: text_content is not a string"

/-- `MailAgent._execute_task` (source lines 152-162). -/
def mailRun (_task : Dict) : Except String Dict :=
  .ok [("summary", .str "Analyzed email inbox and found 10 important messages requiring attention"),
       ("results", .dict [("important_emails", .int 10)])]

/-- `CalendarAgent._execute_task` (source lines 165-175). -/
def calendarRun (_task : Dict) : Except String Dict :=
  .ok [("summary", .str "Found 3 available time slots for the requested meeting"),
       ("results", .dict [("available_slots", .int 3)])]

/-- `MultiAgentOrchestrator.__init__` (source lines 181-189): the fixed
registry, in insertion order. -/
def defaultAgents : Registry :=
  [("spotlight", ⟨"SpotlightAgent", fun t => t == "spotlight_search", spotlightRun⟩),
   ("file", ⟨"FileAgent", fun t => t == "file_processing", fileRun⟩),
   ("research", ⟨"ResearchAgent", fun t => t == "web_research", researchRun⟩),
   ("analysis", ⟨"AnalysisAgent", fun t => t == "analysis", analysisRun⟩),
   ("mail", ⟨"MailAgent", fun t => t == "email_analysis", mailRun⟩),
   ("calendar", ⟨"CalendarAgent", fun t => t == "schedule_meeting", calendarRun⟩)]

/-- `MultiAgentOrchestrator.find_capable_agents` (source lines 191-194). -/
def find_capable_agents (agents : Registry) (task_type : Val) : List String :=
  (agents.filter (fun p => valCanHandle p.2 task_type)).map Prod.fst

/-- `MultiAgentOrchestrator.execute_task` (source lines 196-242).  The first
capable handler (registration order) executes; orchestrator metadata is then
merged into its `orchestrator_info` dict.  `self.agents[agent_name]` is the
filtered pair itself since registry names are unique.  If a handler returned a
non-dict `orchestrator_info`, `.update` would raise and be caught by the
`except` at lines 234-242. -/
def execute_task (agents : Registry) (task : Dict) : Dict :=
  let ttV := getD task "task_type" (.str "")
  if !ttV.truthy then
    [("status", .str "error"),
     ("summary", .str "No task type specified"),
     ("message", .str "Task must include a 'task_type' field")]
  else
    match agents.filter (fun p => valCanHandle p.2 ttV) with
    | [] =>
        [("status", .str "error"),
         ("summary", .str ("No agent available for task type: " ++ pyStr ttV)),
         ("message", .str ("Task type '" ++ pyStr ttV ++ "' is not supported"))]
    | (name, ag) :: _ =>
        let result := agentExecute ag task
        match lookupD result "orchestrator_info" with
        | some (.dict oi) =>
            setD result "orchestrator_info"
              (.dict (updateD oi
                [("selected_agent", .str name), ("task_type", ttV), ("timestamp", .str "")]))
        | Option.none =>
            setD result "orchestrator_info"
              (.dict [("selected_agent", .str name), ("task_type", ttV), ("timestamp", .str "")])
        | some _ =>
            [("status", .str "error"),
             ("summary", .str ("Agent '" ++ name ++ "' failed: update on a non-dict orchestrator_info")),
             ("message", .str "update on a non-dict orchestrator_info"),
             ("details", .str "update on a non-dict orchestrator_info"),
             ("agent", .str name),
             ("task_type", ttV)]

/-!
## Intent planner (source lines 244-311)
-/

/-- `file_keywords` (source line 253). -/
def file_keywords : List String :=
  ["pdf", "document", "file", "doc", "txt", "attachment", "upload"]

/-- `analysis_keywords` (source lines 254-255). -/
def analysis_keywords : List String :=
  ["summarize", "summary", "analyze", "analysis", "insights",
   "report", "explain", "key points", "brief", "overview"]

/-- `research_keywords` (source lines 256-257). -/
def research_keywords : List String :=
  ["research", "google", "search web", "find information",
   "look up", "market", "competitive", "industry"]

/-- `email_keywords` (source line 258). -/
def email_keywords : List String := ["email", "mail", "inbox", "messages"]

/-- `calendar_keywords` (source line 259). -/
def calendar_keywords : List String := ["schedule", "meeting", "calendar", "appointment"]

/-- `any(keyword in query_lower for keyword in keywords)`. -/
def containsAny (query_lower : String) (keywords : List String) : Bool :=
  keywords.any (fun k => strContains query_lower k)

/-- The residual content of the query (source lines 286-287): the words of
`query_lower` that are neither analysis command words nor articles. -/
def contentWords (query_lower : String) : List String :=
  (pySplit query_lower).filter
    (fun w => !((analysis_keywords ++ ["the", "a", "an", "this", "that"]).contains w))

/-- A plan step as built by `_determine_intent`: a dict holding `task_type`
and, for error plans, a `message`. -/
structure Step where
  task_type : String
  message : Option String
deriving DecidableEq, Repr

/-- The step dict as a `Val` (for result metadata). -/
def stepVal (s : Step) : Val :=
  .dict ([("task_type", .str s.task_type)] ++
    (match s.message with | some m => [("message", .str m)] | Option.none => []))

/-- A plan as a `Val` (for result metadata). -/
def planVal (p : List Step) : Val := .list (p.map stepVal)

/-- `MultiAgentOrchestrator._determine_intent` (source lines 244-311), on a
string query (`query_lower = query.lower().strip()`). -/
def determineIntentStr (query : String) (has_files : Bool) : List Step :=
  if containsAny (pyStrip (strLower query)) file_keywords && !has_files then
    [⟨"error", some "You mentioned a file but didn't upload any. Please attach a file and try again."⟩]
  else if has_files then
    ⟨"file_processing", Option.none⟩ ::
      (if containsAny (pyStrip (strLower query)) analysis_keywords || query == "" then
        [⟨"analysis", Option.none⟩] else [])
  else if containsAny (pyStrip (strLower query)) research_keywords then
    ⟨"web_research", Option.none⟩ ::
      (if containsAny (pyStrip (strLower query)) analysis_keywords
          || strContains (pyStrip (strLower query)) "report" then
        [⟨"analysis", Option.none⟩] else [])
  else if containsAny (pyStrip (strLower query)) analysis_keywords then
    if (contentWords (pyStrip (strLower query))).length < 3 then
      [⟨"error", some "Please provide more content to analyze, or upload a file."⟩]
    else [⟨"analysis", Option.none⟩]
  else if containsAny (pyStrip (strLower query)) email_keywords then
    [⟨"email_analysis", Option.none⟩]
  else if containsAny (pyStrip (strLower query)) calendar_keywords then
    [⟨"schedule_meeting", Option.none⟩]
  else if 3 < (pySplit query).length then
    [⟨"analysis", Option.none⟩]
  else
    [⟨"error", some "I couldn't understand what you'd like me to do. Please provide more details."⟩]

/-- `_determine_intent` on the raw query value: a falsy query is replaced by
`""` (line 246-247); `query.lower()` on a truthy non-string raises
`AttributeError`, which propagates to the `except` of
`execute_orchestration`. -/
def determine_intent (queryV : Val) (has_files : Bool) : Except String (List Step) :=
  let q := if queryV.truthy then queryV else .str ""
  match q with
  | .str s => .ok (determineIntentStr s has_files)
  | _ => .error "AttributeError: query has no attribute lower"

/-!
## Execution engine and response normalizer (source lines 313-428)

`execute_orchestration`'s loop is factored into `planLoop`; its local
`execution_context` is threaded explicitly, and the pair returned on `.ok`
carries the context held at the moment of return.  A Lean `.error` models a
Python exception reaching the outer `try` of `execute_orchestration`.
-/

/-- Keyword arguments of `_error_response` beyond `summary`/`message`, in the
order the source passes them (query, agents_executed, failed_step, plan). -/
structure ErrKw where
  query : Option Val
  agents_executed : Option (List Val)
  failed_step : Option Nat
  plan : Option (List Step)

/-- `MultiAgentOrchestrator._error_response` (source lines 411-428): the
metadata block is added exactly when a kwarg other than `query` /
`agents_executed` was passed. -/
def error_response (summary message : Val) (kw : ErrKw) : Dict :=
  let base : Dict :=
    [("status", .str "error"),
     ("summary", summary),
     ("message", message),
     ("query", kw.query.getD (.str "")),
     ("agents_executed", .list (kw.agents_executed.getD []))]
  if kw.failed_step.isSome || kw.plan.isSome then
    base ++ [("orchestration_metadata", .dict
      ((match kw.failed_step with
        | some n => [("failed_step", .int (n : Int))]
        | Option.none => []) ++
       (match kw.plan with
        | some p => [("plan", planVal p)]
        | Option.none => [])))]
  else base

/-- The per-step input dict (source lines 350-357): the running context plus
the step's task type; analysis steps get `text_content` bound to the latest
`extracted_text`, defaulting to the original query value. -/
def stepTask (queryV : Val) (ctx : Dict) (s : Step) : Dict :=
  let current := setD ctx "task_type" (.str s.task_type)
  if s.task_type == "analysis" then
    setD current "text_content" (getD ctx "extracted_text" queryV)
  else current

/-- The step's result: `execute_task` on the prepared step input. -/
def stepExec (agents : Registry) (queryV : Val) (ctx : Dict) (s : Step) : Dict :=
  execute_task agents (stepTask queryV ctx s)

/-- `result.get("status") == "error"` (source line 371). -/
def isErrorStatus (d : Dict) : Bool :=
  match lookupD d "status" with
  | some (.str s) => s == "error"
  | _ => false

/-- Context merge after a successful step (source lines 381-383):
`execution_context.update(result["results"])` when `results` is truthy.
`Option.none` models the exception raised by updating from a truthy
non-dict. -/
def afterStep (ctx result : Dict) : Option Dict :=
  match lookupD result "results" with
  | some v =>
      if v.truthy then
        match v with
        | .dict r => some (updateD ctx r)
        | _ => Option.none
      else some ctx
  | Option.none => some ctx

/-- The context after a step, defaulting to the unchanged context on the
(unreachable under `prefixOk`) merge failure. -/
def stepMergeD (ctx result : Dict) : Dict :=
  (afterStep ctx result).getD ctx

/-- `result.get("orchestrator_info", {}).get("selected_agent", "unknown")`
(source line 363).  `execute_task` never emits a non-dict
`orchestrator_info`, so the corresponding raise is unreachable and folded
into `"unknown"`. -/
def stepAgentName (result : Dict) : Val :=
  match lookupD result "orchestrator_info" with
  | some (.dict oi) => getD oi "selected_agent" (.str "unknown")
  | some _ => .str "unknown"
  | Option.none => .str "unknown"

/-- `" ".join(parts)`: `Option.none` models the `TypeError` raised when a
collected summary is not a string. -/
def joinParts : List Val → Option String
  | [] => some ""
  | [Val.str s] => some s
  | Val.str s :: rest => (joinParts rest).map (fun r => s ++ " " ++ r)
  | _ => Option.none

/-- The completed-path result dict (source lines 391-402). -/
def successDict (queryV : Val) (plan0 : List Step) (executed : List Val) (summary : String) : Dict :=
  [("status", .str "completed"),
   ("summary", .str summary),
   ("query", queryV),
   ("agents_executed", .list executed),
   ("orchestration_metadata", .dict
      [("plan", planVal plan0),
       ("agents_executed", .list executed),
       ("was_chained", .bool (decide (1 < executed.length))),
       ("timestamp", .str "")])]

/-- Final summary construction and completed result (source lines 385-402). -/
def finishRun (queryV : Val) (plan0 : List Step) (executed parts : List Val) :
    Except String Dict :=
  match parts with
  | [] =>
      .ok (successDict queryV plan0 executed
        ("Completed " ++ toString executed.length ++ " task(s) successfully"))
  | _ =>
      match joinParts parts with
      | some s => .ok (successDict queryV plan0 executed s)
      | Option.none => .error "TypeError: summary parts must be strings"

/-- The plan-execution loop of `execute_orchestration` (source lines
343-402), with the enumeration index, context, executed-agents list and
summary parts threaded explicitly.  On `.ok` the second component is the
`execution_context` held at the moment of return. -/
def planLoop (agents : Registry) (queryV : Val) (plan0 : List Step) :
    List Step → Nat → Dict → List Val → List Val → Except String (Dict × Dict)
  | [], _, ctx, executed, parts =>
      (finishRun queryV plan0 executed parts).map (fun r => (r, ctx))
  | s :: rest, i, ctx, executed, parts =>
      let result := stepExec agents queryV ctx s
      let executed2 := executed ++ [stepAgentName result]
      let parts2 :=
        if optTruthy (lookupD result "summary") then parts ++ [getD result "summary" (.str "")]
        else parts
      if isErrorStatus result then
        .ok (error_response (getD result "summary" (.str "Task failed"))
               (getD result "message" (.str "Unknown error"))
               ⟨some queryV, some executed2, some (i + 1), some plan0⟩, ctx)
      else
        match afterStep ctx result with
        | some ctx2 => planLoop agents queryV plan0 rest (i + 1) ctx2 executed2 parts2
        | Option.none => .error "TypeError: cannot update context from step results"

/-- Public input of `execute_orchestration`: `Union[str, Dict]`. -/
inductive OTask where
  | ofStr (s : String)
  | ofDict (d : Dict)

/-- Input normalization (source lines 316-320). -/
def normalizeTask : OTask → Dict
  | .ofStr s => [("query", .str s)]
  | .ofDict d => d

/-- `MultiAgentOrchestrator.execute_orchestration` (source lines 313-409):
normalize the input, plan, short-circuit error plans, execute, and convert
any escaped exception into the `"Orchestration failed"` response. -/
def execute_orchestration (agents : Registry) (task : OTask) : Dict :=
  let task_dict := normalizeTask task
  let queryV := getD task_dict "query" (.str "")
  let files := lookupD task_dict "files"
  match determine_intent queryV (optTruthy files) with
  | .error e =>
      error_response (.str "Orchestration failed") (.str e)
        ⟨some queryV, Option.none, Option.none, Option.none⟩
  | .ok plan =>
      match plan with
      | step0 :: _ =>
          if step0.task_type == "error" then
            error_response (.str (step0.message.getD "Invalid request"))
              (.str "Request validation failed")
              ⟨some queryV, Option.none, Option.none, Option.none⟩
          else
            match planLoop agents queryV plan plan 0 task_dict [] [] with
            | .ok (res, _) => res
            | .error e =>
                error_response (.str "Orchestration failed") (.str e)
                  ⟨some queryV, Option.none, Option.none, Option.none⟩
      | [] =>
          match planLoop agents queryV plan plan 0 task_dict [] [] with
          | .ok (res, _) => res
          | .error e =>
              error_response (.str "Orchestration failed") (.str e)
                ⟨some queryV, Option.none, Option.none, Option.none⟩

/-!
## Specification scaffolding

Derived views of the loop used to state properties about runs: the context,
executed-agent names and summary parts accumulated over a prefix of steps,
and the predicate that a prefix runs without any error or merge fault.
-/

/-- A list of steps all succeed from a given context: each step's result is
not an error and its `results` merge into the context succeeds. -/
def prefixOk (agents : Registry) (queryV : Val) : List Step → Dict → Bool
  | [], _ => true
  | s :: rest, ctx =>
      let r := stepExec agents queryV ctx s
      !isErrorStatus r && (afterStep ctx r).isSome &&
        prefixOk agents queryV rest (stepMergeD ctx r)

/-- The execution context after running a list of steps (merge faults leave
the context unchanged; irrelevant under `prefixOk`). -/
def ctxAfter (agents : Registry) (queryV : Val) : List Step → Dict → Dict
  | [], ctx => ctx
  | s :: rest, ctx =>
      ctxAfter agents queryV rest (stepMergeD ctx (stepExec agents queryV ctx s))

/-- The agent names appended to `agents_executed` over a list of steps. -/
def namesOf (agents : Registry) (queryV : Val) : List Step → Dict → List Val
  | [], _ => []
  | s :: rest, ctx =>
      stepAgentName (stepExec agents queryV ctx s) ::
        namesOf agents queryV rest (stepMergeD ctx (stepExec agents queryV ctx s))

/-- The summary parts collected over a list of steps. -/
def partsOf (agents : Registry) (queryV : Val) : List Step → Dict → List Val
  | [], _ => []
  | s :: rest, ctx =>
      let r := stepExec agents queryV ctx s
      (if optTruthy (lookupD r "summary") then [getD r "summary" (.str "")] else []) ++
        partsOf agents queryV rest (stepMergeD ctx r)

/-- The `failed_step` entry of a result's `orchestration_metadata`. -/
def metaFailedStep (d : Dict) : Option Val :=
  match lookupD d "orchestration_metadata" with
  | some (.dict m) => lookupD m "failed_step"
  | _ => Option.none

/-- A result carries the four guaranteed keys. -/
def has4 (d : Dict) : Prop :=
  (lookupD d "status").isSome = true ∧
  (lookupD d "summary").isSome = true ∧
  (lookupD d "query").isSome = true ∧
  (lookupD d "agents_executed").isSome = true

/-- Test fixture: a handler that declares the `analysis` capability and
always raises. -/
def boomAgent (msg : String) : Agent :=
  ⟨"BoomAgent", fun t => t == "analysis", fun _ => .error msg⟩

/-- Test fixture: a handler that accepts anything and returns an empty dict
(omitting `summary` and `status`). -/
def quietAgent : Agent :=
  ⟨"QuietAgent", fun _ => true, fun _ => .ok []⟩

/-- Witness fixture: a one-step plan naming a task type no default handler
can handle. -/
def bogusPlan : List Step := [⟨"bogus", Option.none⟩]

/-- Witness fixture: the result component of the run of `bogusPlan`. -/
def bogusRunResult : Dict :=
  match planLoop defaultAgents (.str "") bogusPlan bogusPlan 0 [] [] [] with
  | .ok (r, _) => r
  | .error _ => []

set_option maxRecDepth 10000

/-!
## Lemmas on dict operations
-/

theorem lookupD_setD_self (d : Dict) (k : String) (v : Val) :
    lookupD (setD d k v) k = some v := by
  induction d with
  | nil => simp [setD, lookupD]
  | cons p rest ih =>
      obtain ⟨k', v'⟩ := p
      by_cases h : k' = k
      · simp [setD, lookupD, h]
      · simp [setD, lookupD, h, ih]

theorem lookupD_setD_ne (d : Dict) (k k' : String) (v : Val) (h : k ≠ k') :
    lookupD (setD d k v) k' = lookupD d k' := by
  induction d with
  | nil => simp [setD, lookupD, h]
  | cons p rest ih =>
      obtain ⟨k0, v0⟩ := p
      by_cases h0 : k0 = k
      · subst h0
        simp [setD, lookupD, h]
      · simp [setD, lookupD, h0, ih]

theorem isSome_lookupD_setD (d : Dict) (k k' : String) (v : Val)
    (h : (lookupD d k').isSome = true) :
    (lookupD (setD d k v) k').isSome = true := by
  by_cases hk : k = k'
  · subst hk; simp [lookupD_setD_self]
  · rwa [lookupD_setD_ne d k k' v hk]

theorem isSome_lookupD_updateD (e : Dict) (d : Dict) (k : String)
    (h : (lookupD d k).isSome = true) :
    (lookupD (updateD d e) k).isSome = true := by
  induction e generalizing d with
  | nil => simpa [updateD] using h
  | cons p rest ih =>
      obtain ⟨k0, v0⟩ := p
      have : updateD d ((k0, v0) :: rest) = updateD (setD d k0 v0) rest := rfl
      rw [this]
      exact ih (setD d k0 v0) (isSome_lookupD_setD d k0 k v0 h)

theorem lookupD_updateD_of_notin (e : Dict) (d : Dict) (k : String)
    (h : ∀ p ∈ e, p.1 ≠ k) :
    lookupD (updateD d e) k = lookupD d k := by
  induction e generalizing d with
  | nil => rfl
  | cons p rest ih =>
      obtain ⟨k0, v0⟩ := p
      have hstep : updateD d ((k0, v0) :: rest) = updateD (setD d k0 v0) rest := rfl
      rw [hstep, ih (setD d k0 v0) (fun q hq => h q (List.mem_cons_of_mem _ hq)),
        lookupD_setD_ne d k0 k v0 (h (k0, v0) (List.mem_cons_self _ _))]

theorem lookupD_updateD_of_mem (e : Dict) (d : Dict) (k : String) (v : Val)
    (hnd : (e.map Prod.fst).Nodup) (h : lookupD e k = some v) :
    lookupD (updateD d e) k = some v := by
  induction e generalizing d with
  | nil => simp [lookupD] at h
  | cons p rest ih =>
      obtain ⟨k0, v0⟩ := p
      have hstep : updateD d ((k0, v0) :: rest) = updateD (setD d k0 v0) rest := rfl
      rw [hstep]
      simp only [List.map_cons, List.nodup_cons] at hnd
      by_cases hk : k0 = k
      · subst hk
        simp only [lookupD, beq_self_eq_true, if_true] at h
        rw [lookupD_updateD_of_notin rest (setD d k0 v0) k0
            (fun q hq hq1 => hnd.1 (hq1 ▸ List.mem_map_of_mem Prod.fst hq)),
          lookupD_setD_self, h]
      · simp only [lookupD, beq_iff_eq, hk, if_false] at h
        exact ih (setD d k0 v0) hnd.2 h

theorem isSome_lookupD_updateD_right (e : Dict) (d : Dict) (k : String)
    (h : (lookupD e k).isSome = true) :
    (lookupD (updateD d e) k).isSome = true := by
  induction e generalizing d with
  | nil => simp [lookupD] at h
  | cons p rest ih =>
      obtain ⟨k0, v0⟩ := p
      have hstep : updateD d ((k0, v0) :: rest) = updateD (setD d k0 v0) rest := rfl
      rw [hstep]
      by_cases hk : k0 = k
      · subst hk
        exact isSome_lookupD_updateD rest (setD d k0 v0) k0
          (by simp [lookupD_setD_self])
      · simp only [lookupD, beq_iff_eq, hk, if_false] at h
        exact ih (setD d k0 v0) h

/-!
## Lemmas on the response shapes
-/

theorem error_response_lookup_status (s m : Val) (kw : ErrKw) :
    lookupD (error_response s m kw) "status" = some (.str "error") := by
  simp only [error_response]
  split <;> rfl

theorem error_response_lookup_summary (s m : Val) (kw : ErrKw) :
    lookupD (error_response s m kw) "summary" = some s := by
  simp only [error_response]
  split <;> rfl

theorem error_response_lookup_message (s m : Val) (kw : ErrKw) :
    lookupD (error_response s m kw) "message" = some m := by
  simp only [error_response]
  split <;> rfl

theorem error_response_lookup_query (s m : Val) (kw : ErrKw) :
    lookupD (error_response s m kw) "query" = some (kw.query.getD (.str "")) := by
  simp only [error_response]
  split <;> rfl

theorem error_response_lookup_agents (s m : Val) (kw : ErrKw) :
    lookupD (error_response s m kw) "agents_executed"
      = some (.list (kw.agents_executed.getD [])) := by
  simp only [error_response]
  split <;> rfl

theorem error_response_failed_step (s m : Val) (q : Option Val)
    (ex : Option (List Val)) (n : Nat) (p : List Step) :
    metaFailedStep (error_response s m ⟨q, ex, some n, some p⟩)
      = some (.int (n : Int)) := by
  rfl

theorem has4_error_response (s m : Val) (kw : ErrKw) : has4 (error_response s m kw) := by
  refine ⟨?_, ?_, ?_, ?_⟩ <;>
    · simp only [error_response]
      split <;> rfl

theorem has4_successDict (queryV : Val) (plan0 : List Step) (executed : List Val)
    (summary : String) : has4 (successDict queryV plan0 executed summary) :=
  ⟨rfl, rfl, rfl, rfl⟩

/-!
## Lemmas on the execution loop
-/

theorem namesOf_length (agents : Registry) (queryV : Val) (pre : List Step) :
    ∀ ctx, (namesOf agents queryV pre ctx).length = pre.length := by
  induction pre with
  | nil => intro ctx; rfl
  | cons s t ih => intro ctx; simp [namesOf, ih]

theorem ctxAfter_append (agents : Registry) (queryV : Val) (l1 l2 : List Step) :
    ∀ ctx, ctxAfter agents queryV (l1 ++ l2) ctx
      = ctxAfter agents queryV l2 (ctxAfter agents queryV l1 ctx) := by
  induction l1 with
  | nil => intro ctx; rfl
  | cons s t ih => intro ctx; simp [ctxAfter, ih]

theorem planLoop_append (agents : Registry) (queryV : Val) (plan0 : List Step)
    (pre : List Step) :
    ∀ (rest : List Step) (i : Nat) (ctx : Dict) (executed parts : List Val),
      prefixOk agents queryV pre ctx = true →
      planLoop agents queryV plan0 (pre ++ rest) i ctx executed parts
        = planLoop agents queryV plan0 rest (i + pre.length)
            (ctxAfter agents queryV pre ctx)
            (executed ++ namesOf agents queryV pre ctx)
            (parts ++ partsOf agents queryV pre ctx) := by
  induction pre with
  | nil =>
      intro rest i ctx executed parts _
      simp [ctxAfter, namesOf, partsOf]
  | cons s pre' ih =>
      intro rest i ctx executed parts h
      simp only [prefixOk, Bool.and_eq_true, Bool.not_eq_true'] at h
      obtain ⟨⟨h1, h2⟩, h3⟩ := h
      obtain ⟨ctx2, hc2⟩ := Option.isSome_iff_exists.mp h2
      have hmerge : stepMergeD ctx (stepExec agents queryV ctx s) = ctx2 := by
        simp [stepMergeD, hc2]
      rw [hmerge] at h3
      simp only [List.cons_append, planLoop, h1, hc2, Bool.false_eq_true, if_false,
        List.append_eq]
      rw [ih rest (i + 1) ctx2
        (executed ++ [stepAgentName (stepExec agents queryV ctx s)])
        (if optTruthy (lookupD (stepExec agents queryV ctx s) "summary") = true
         then parts ++ [getD (stepExec agents queryV ctx s) "summary" (.str "")] else parts) h3]
      simp only [ctxAfter, namesOf, partsOf, hmerge, List.length_cons, List.append_assoc,
        List.cons_append, List.nil_append, List.singleton_append]
      have harith : i + 1 + pre'.length = i + (pre'.length + 1) := by omega
      rw [harith]
      by_cases hcond : optTruthy (lookupD (stepExec agents queryV ctx s) "summary") = true
      · simp [hcond]
      · simp [hcond]

theorem planLoop_fail_at (agents : Registry) (queryV : Val) (plan0 : List Step)
    (pre : List Step) (s : Step) (post : List Step) (i : Nat) (ctx : Dict)
    (executed parts : List Val)
    (hpre : prefixOk agents queryV pre ctx = true)
    (herr : isErrorStatus (stepExec agents queryV (ctxAfter agents queryV pre ctx) s) = true) :
    planLoop agents queryV plan0 (pre ++ s :: post) i ctx executed parts
      = .ok (error_response
              (getD (stepExec agents queryV (ctxAfter agents queryV pre ctx) s) "summary"
                (.str "Task failed"))
              (getD (stepExec agents queryV (ctxAfter agents queryV pre ctx) s) "message"
                (.str "Unknown error"))
              ⟨some queryV,
               some (executed ++ (namesOf agents queryV pre ctx
                 ++ [stepAgentName (stepExec agents queryV (ctxAfter agents queryV pre ctx) s)])),
               some (i + pre.length + 1), some plan0⟩,
             ctxAfter agents queryV pre ctx) := by
  rw [planLoop_append agents queryV plan0 pre (s :: post) i ctx executed parts hpre]
  simp only [planLoop, herr, if_true, List.append_assoc]

theorem normalize_query_str (s : String) :
    (if (Val.str s).truthy = true then Val.str s else Val.str "") = Val.str s := by
  by_cases h : s = ""
  · subst h; rfl
  · simp [Val.truthy, h]

theorem determine_intent_str (s : String) (hf : Bool) :
    determine_intent (.str s) hf = .ok (determineIntentStr s hf) := by
  simp only [determine_intent, normalize_query_str]

theorem stepTask_task_type (queryV : Val) (ctx : Dict) (s : Step) :
    lookupD (stepTask queryV ctx s) "task_type" = some (.str s.task_type) := by
  unfold stepTask
  split
  · rw [lookupD_setD_ne _ "text_content" "task_type" _ (by decide)]
    exact lookupD_setD_self ctx "task_type" _
  · exact lookupD_setD_self ctx "task_type" _

theorem defaultSummary_ne_empty (task : Dict) : defaultSummary task ≠ "" := by
  unfold defaultSummary
  intro h
  have hl := congrArg String.length h
  rw [String.length_append, String.length_append] at hl
  have h1 : String.length "Successfully completed " = 23 := by decide
  have h2 : String.length " task" = 5 := by decide
  have h3 : String.length "" = 0 := by decide
  omega

theorem isSome_lookupD_stepMergeD (ctx result : Dict) (k : String)
    (h : (lookupD ctx k).isSome = true) :
    (lookupD (stepMergeD ctx result) k).isSome = true := by
  unfold stepMergeD afterStep
  cases hres : lookupD result "results" with
  | none => simpa using h
  | some v =>
      by_cases ht : v.truthy = true
      · simp only [ht, if_true]
        cases v with
        | dict r => simpa using isSome_lookupD_updateD r ctx k h
        | str s => simpa using h
        | int n => simpa using h
        | rat q => simpa using h
        | bool b => simpa using h
        | list xs => simpa using h
      · simp only [Bool.not_eq_true] at ht
        simpa [ht] using h

theorem planLoop_has4 (agents : Registry) (queryV : Val) (plan0 : List Step) :
    ∀ (steps : List Step) (i : Nat) (ctx : Dict) (executed parts : List Val) (r c : Dict),
      planLoop agents queryV plan0 steps i ctx executed parts = .ok (r, c) → has4 r := by
  intro steps
  induction steps with
  | nil =>
      intro i ctx executed parts r c h
      simp only [planLoop, finishRun] at h
      rcases parts with _ | ⟨p, parts'⟩
      · simp only [Except.map] at h
        cases h
        exact has4_successDict _ _ _ _
      · cases hj : joinParts (p :: parts') with
        | none => rw [hj] at h; simp [Except.map] at h
        | some sm =>
            rw [hj] at h
            simp only [Except.map] at h
            cases h
            exact has4_successDict _ _ _ _
  | cons s rest ih =>
      intro i ctx executed parts r c h
      simp only [planLoop] at h
      by_cases he : isErrorStatus (stepExec agents queryV ctx s) = true
      · rw [if_pos he] at h
        cases h
        exact has4_error_response _ _ _
      · rw [if_neg he] at h
        cases ha : afterStep ctx (stepExec agents queryV ctx s) with
        | none => rw [ha] at h; simp at h
        | some ctx2 =>
            rw [ha] at h
            exact ih (i + 1) ctx2 _ _ r c h

/-!
## Claims
-/

/-- Claim C10: for every string `s`, calling `execute_orchestration` with the
bare string `s` returns the same result as calling it with the dict
`{"query": s}` (timestamps are modelled as constants): the two inputs
normalize to the same `task_dict` and the rest of the run is identical. -/
theorem c10_string_dict_equivalence (agents : Registry) (s : String) :
    execute_orchestration agents (.ofStr s)
      = execute_orchestration agents (.ofDict [("query", .str s)]) := rfl

/-- Claim C8: the request `{query: "", files: ["doc1.pdf"]}` plans exactly
`[file_processing, analysis]` (the analysis step is appended because the
query is empty), and on success `agents_executed` is the two-element list
`["file", "analysis"]` with a completed status. -/
theorem c8_empty_query_with_attachment :
    determine_intent (.str "") true
        = .ok [⟨"file_processing", Option.none⟩, ⟨"analysis", Option.none⟩] ∧
    lookupD (execute_orchestration defaultAgents
        (.ofDict [("query", .str ""), ("files", .list [.str "doc1.pdf"])])) "agents_executed"
      = some (.list [.str "file", .str "analysis"]) ∧
    lookupD (execute_orchestration defaultAgents
        (.ofDict [("query", .str ""), ("files", .list [.str "doc1.pdf"])])) "status"
      = some (.str "completed") :=
  ⟨rfl, rfl, rfl⟩

/-- Claim C1: for every request dict whose `query` contains file vocabulary
and whose `files` list is empty, the planner returns the missing-attachment
error plan and the orchestration result is exactly the corresponding error
response — with status `error` and empty `agents_executed` — for EVERY
registry, so no handler's `execute` is ever consulted. -/
theorem c1_file_vocab_without_attachments (agents : Registry) (d : Dict) (q : String)
    (hq : lookupD d "query" = some (.str q))
    (hfiles : lookupD d "files" = some (.list []))
    (hvocab : containsAny (pyStrip (strLower q)) file_keywords = true) :
    execute_orchestration agents (.ofDict d)
        = error_response
            (.str "You mentioned a file but didn't upload any. Please attach a file and try again.")
            (.str "Request validation failed")
            ⟨some (.str q), Option.none, Option.none, Option.none⟩ ∧
    lookupD (execute_orchestration agents (.ofDict d)) "status" = some (.str "error") ∧
    lookupD (execute_orchestration agents (.ofDict d)) "agents_executed" = some (.list []) := by
  have hplan : determineIntentStr q false
      = [⟨"error", some "You mentioned a file but didn't upload any. Please attach a file and try again."⟩] := by
    unfold determineIntentStr
    simp [hvocab]
  have hmain : execute_orchestration agents (.ofDict d)
      = error_response
          (.str "You mentioned a file but didn't upload any. Please attach a file and try again.")
          (.str "Request validation failed")
          ⟨some (.str q), Option.none, Option.none, Option.none⟩ := by
    simp only [execute_orchestration, normalizeTask, getD, hq, hfiles, Option.getD_some,
      optTruthy, Val.truthy, List.isEmpty_nil, Bool.not_true, determine_intent_str, hplan]
    rfl
  refine ⟨hmain, ?_, ?_⟩
  · rw [hmain, error_response_lookup_status]
  · rw [hmain, error_response_lookup_agents]
    rfl

theorem c1_witness :
    lookupD (execute_orchestration defaultAgents
        (.ofDict [("query", .str "summarize the pdf"), ("files", .list [])])) "status"
        = some (.str "error") ∧
    lookupD (execute_orchestration defaultAgents
        (.ofDict [("query", .str "summarize the pdf"), ("files", .list [])])) "agents_executed"
        = some (.list []) :=
  ⟨(c1_file_vocab_without_attachments defaultAgents
      [("query", .str "summarize the pdf"), ("files", .list [])] "summarize the pdf"
      rfl rfl rfl).2.1,
   (c1_file_vocab_without_attachments defaultAgents
      [("query", .str "summarize the pdf"), ("files", .list [])] "summarize the pdf"
      rfl rfl rfl).2.2⟩

/-- Claim C2, counterexample to the stated priority: the query
`"market summary"` has no file vocabulary, matches analysis vocabulary, and
its residual content (`["market"]`) has fewer than 3 tokens, yet the planner
does NOT return the insufficient-content error plan — the research branch is
checked first and builds `[web_research, analysis]`. -/
theorem c2_counterexample :
    containsAny (pyStrip (strLower "market summary")) file_keywords = false ∧
    containsAny (pyStrip (strLower "market summary")) analysis_keywords = true ∧
    containsAny (pyStrip (strLower "market summary")) research_keywords = true ∧
    (contentWords (pyStrip (strLower "market summary"))).length < 3 ∧
    determine_intent (.str "market summary") false
      = .ok [⟨"web_research", Option.none⟩, ⟨"analysis", Option.none⟩] ∧
    determine_intent (.str "market summary") false
      ≠ .ok [⟨"error", some "Please provide more content to analyze, or upload a file."⟩] := by
  have hv : determine_intent (.str "market summary") false
      = .ok [⟨"web_research", Option.none⟩, ⟨"analysis", Option.none⟩] := rfl
  refine ⟨rfl, rfl, rfl, by decide, hv, ?_⟩
  rw [hv]
  intro h
  simp at h

/-- Claim C2 (amended): the insufficient-content check fires only when the
research vocabulary does NOT also match: for every query with no file
vocabulary, matching analysis vocabulary, not matching research vocabulary,
no attachments, and a residual content of fewer than 3 tokens, the planner
returns the insufficient-content error plan and builds no steps. -/
theorem c2_insufficient_content_without_research (q : String)
    (hfile : containsAny (pyStrip (strLower q)) file_keywords = false)
    (hana : containsAny (pyStrip (strLower q)) analysis_keywords = true)
    (hres : containsAny (pyStrip (strLower q)) research_keywords = false)
    (hcw : (contentWords (pyStrip (strLower q))).length < 3) :
    determine_intent (.str q) false
      = .ok [⟨"error", some "Please provide more content to analyze, or upload a file."⟩] := by
  rw [determine_intent_str]
  unfold determineIntentStr
  simp [hfile, hana, hres, hcw]

theorem c2_witness :
    determine_intent (.str "summarize") false
      = .ok [⟨"error", some "Please provide more content to analyze, or upload a file."⟩] :=
  c2_insufficient_content_without_research "summarize" rfl rfl rfl (by decide)

/-- Claim C3, counterexample to the stated index: a one-step plan whose step
0 fails records `failed_step = 1` (the source stores `i + 1`), not the
claimed 0-based index 0. -/
theorem c3_counterexample :
    isErrorStatus (stepExec defaultAgents (.str "") [] ⟨"bogus", Option.none⟩) = true ∧
    metaFailedStep bogusRunResult = some (.int 1) ∧
    metaFailedStep bogusRunResult ≠ some (.int 0) := by
  refine ⟨rfl, rfl, ?_⟩
  intro h
  rw [show metaFailedStep bogusRunResult = some (.int 1) from rfl] at h
  simp at h

/-- Claim C3 (amended): if the first `k = pre.length` steps succeed and step
`k` (0-based) errors, the loop stops — the later steps influence nothing but
the reported plan — the run returns a status-error response, exactly one
`agents_executed` entry exists per attempted step (`k + 1` in total), and the
metadata records `failed_step = k + 1`, i.e. the 1-based position of the
failing step (the source stores `i + 1`), not the 0-based index `k`. -/
theorem c3_fail_fast_failed_step (agents : Registry) (queryV : Val) (ctx : Dict)
    (pre : List Step) (s : Step) (post : List Step)
    (hpre : prefixOk agents queryV pre ctx = true)
    (herr : isErrorStatus (stepExec agents queryV (ctxAfter agents queryV pre ctx) s) = true) :
    ∃ res c,
      planLoop agents queryV (pre ++ s :: post) (pre ++ s :: post) 0 ctx [] [] = .ok (res, c) ∧
      lookupD res "status" = some (.str "error") ∧
      metaFailedStep res = some (.int ((pre.length : Int) + 1)) ∧
      lookupD res "agents_executed"
        = some (.list (namesOf agents queryV pre ctx
            ++ [stepAgentName (stepExec agents queryV (ctxAfter agents queryV pre ctx) s)])) ∧
      (namesOf agents queryV pre ctx
        ++ [stepAgentName (stepExec agents queryV (ctxAfter agents queryV pre ctx) s)]).length
        = pre.length + 1 := by
  refine ⟨_, _, planLoop_fail_at agents queryV (pre ++ s :: post) pre s post 0 ctx [] [] hpre herr,
    error_response_lookup_status _ _ _, ?_, ?_, ?_⟩
  · rw [error_response_failed_step]
    have : ((0 + pre.length + 1 : Nat) : Int) = (pre.length : Int) + 1 := by push_cast; ring
    rw [this]
  · rw [error_response_lookup_agents]
    simp
  · rw [List.length_append, namesOf_length]
    simp

theorem c3_witness :
    ∃ res c,
      planLoop defaultAgents (.str "") bogusPlan bogusPlan 0 [] [] [] = .ok (res, c) ∧
      lookupD res "status" = some (.str "error") ∧
      metaFailedStep res = some (.int 1) ∧
      lookupD res "agents_executed" = some (.list [.str "unknown"]) ∧
      ([] ++ [Val.str "unknown"] : List Val).length = 0 + 1 :=
  c3_fail_fast_failed_step defaultAgents (.str "") [] [] ⟨"bogus", Option.none⟩ [] rfl rfl

/-- Claim C4: when a step fails after a successful prefix, the execution
context held at the moment the error result is returned is exactly the
context accumulated before the failing step — none of the failing step's
result fields are merged (in the source the merge at lines 381-383 sits
after the error return at lines 371-379). -/
theorem c4_no_partial_merge_on_failure (agents : Registry) (queryV : Val) (ctx : Dict)
    (pre : List Step) (s : Step) (post : List Step)
    (hpre : prefixOk agents queryV pre ctx = true)
    (herr : isErrorStatus (stepExec agents queryV (ctxAfter agents queryV pre ctx) s) = true) :
    ∃ res,
      planLoop agents queryV (pre ++ s :: post) (pre ++ s :: post) 0 ctx [] []
        = .ok (res, ctxAfter agents queryV pre ctx) :=
  ⟨_, planLoop_fail_at agents queryV (pre ++ s :: post) pre s post 0 ctx [] [] hpre herr⟩

theorem c4_witness :
    ∃ res,
      planLoop defaultAgents (.str "") [⟨"bogus", Option.none⟩] [⟨"bogus", Option.none⟩]
          0 [("seed", .str "v")] [] []
        = .ok (res, [("seed", .str "v")]) :=
  c4_no_partial_merge_on_failure defaultAgents (.str "") [("seed", .str "v")] []
    ⟨"bogus", Option.none⟩ [] rfl rfl

/-- Claim C9: when a step names a task type with no capable handler, the run
aborts with a status-error result, and the entry appended to
`agents_executed` for the failed step is the literal string `"unknown"` — so
there is still exactly one entry per attempted step, but the last entry is
not the id of any handler registered in the default registry. -/
theorem c9_unknown_agent_on_no_capable_handler (agents : Registry) (queryV : Val) (ctx : Dict)
    (pre : List Step) (s : Step) (post : List Step)
    (hpre : prefixOk agents queryV pre ctx = true)
    (hcap : find_capable_agents agents (.str s.task_type) = []) :
    ∃ res c,
      planLoop agents queryV (pre ++ s :: post) (pre ++ s :: post) 0 ctx [] [] = .ok (res, c) ∧
      lookupD res "status" = some (.str "error") ∧
      lookupD res "agents_executed"
        = some (.list (namesOf agents queryV pre ctx ++ [.str "unknown"])) ∧
      (namesOf agents queryV pre ctx ++ [Val.str "unknown"]).length = pre.length + 1 ∧
      (namesOf agents queryV pre ctx ++ [Val.str "unknown"]).getLast? = some (.str "unknown") ∧
      (defaultAgents.map Prod.fst).contains "unknown" = false := by
  have hfilter : agents.filter (fun p => valCanHandle p.2 (.str s.task_type)) = [] := by
    unfold find_capable_agents at hcap
    exact List.map_eq_nil_iff.mp hcap
  have hstep : ∃ r : Dict,
      stepExec agents queryV (ctxAfter agents queryV pre ctx) s = r ∧
      isErrorStatus r = true ∧ stepAgentName r = .str "unknown" := by
    by_cases htt0 : s.task_type = ""
    · refine ⟨[("status", .str "error"), ("summary", .str "No task type specified"),
        ("message", .str "Task must include a 'task_type' field")], ?_, rfl, rfl⟩
      simp only [stepExec, execute_task, getD, stepTask_task_type, Option.getD_some, htt0]
      rfl
    · refine ⟨[("status", .str "error"),
        ("summary", .str ("No agent available for task type: " ++ pyStr (.str s.task_type))),
        ("message", .str ("Task type '" ++ pyStr (.str s.task_type) ++ "' is not supported"))],
        ?_, rfl, rfl⟩
      simp only [stepExec, execute_task, getD, stepTask_task_type, Option.getD_some, hfilter]
      simp [Val.truthy, htt0]
  obtain ⟨r, hr, herr0, hname⟩ := hstep
  have herr : isErrorStatus (stepExec agents queryV (ctxAfter agents queryV pre ctx) s) = true := by
    rw [hr]; exact herr0
  refine ⟨_, _,
    planLoop_fail_at agents queryV (pre ++ s :: post) pre s post 0 ctx [] [] hpre herr,
    error_response_lookup_status _ _ _, ?_, ?_, ?_, by decide⟩
  · rw [error_response_lookup_agents]
    rw [hr, hname]
    simp
  · rw [List.length_append, namesOf_length]
    simp
  · exact List.getLast?_concat _

theorem c9_witness :
    ∃ res c,
      planLoop defaultAgents (.str "hello") [⟨"bogus", Option.none⟩] [⟨"bogus", Option.none⟩]
          0 [] [] [] = .ok (res, c) ∧
      lookupD res "status" = some (.str "error") ∧
      lookupD res "agents_executed" = some (.list [.str "unknown"]) ∧
      ([] ++ [Val.str "unknown"] : List Val).length = 0 + 1 ∧
      ([] ++ [Val.str "unknown"] : List Val).getLast? = some (.str "unknown") ∧
      (defaultAgents.map Prod.fst).contains "unknown" = false :=
  c9_unknown_agent_on_no_capable_handler defaultAgents (.str "hello") [] []
    ⟨"bogus", Option.none⟩ [] rfl rfl

/-- Claim C5: a handler fault is always contained: if the prefix before step
`k` succeeds, step `k` selects a handler, and that handler's `execute`
raises with text `msg`, the run does not propagate the fault — it returns a
structured status-error result whose `message` is exactly the fault text and
whose `summary` embeds it.  (In the embedding `execute_orchestration` is a
total function: every fault modelled as `.error` inside the engine is caught
and converted to a response, so no call raises.) -/
theorem c5_handler_fault_contained (agents : Registry) (queryV : Val) (ctx : Dict)
    (pre : List Step) (s : Step) (post : List Step)
    (n : String) (a : Agent) (others : List (String × Agent)) (msg : String)
    (hpre : prefixOk agents queryV pre ctx = true)
    (htt : s.task_type ≠ "")
    (hsel : agents.filter (fun p => valCanHandle p.2 (.str s.task_type)) = (n, a) :: others)
    (hrun : a.run (stepTask queryV (ctxAfter agents queryV pre ctx) s) = .error msg) :
    ∃ res c,
      planLoop agents queryV (pre ++ s :: post) (pre ++ s :: post) 0 ctx [] [] = .ok (res, c) ∧
      lookupD res "status" = some (.str "error") ∧
      lookupD res "message" = some (.str msg) ∧
      lookupD res "summary" = some (.str ("Error in " ++ a.className ++ ": " ++ msg)) := by
  have hr : stepExec agents queryV (ctxAfter agents queryV pre ctx) s
      = [("status", .str "error"),
         ("summary", .str ("Error in " ++ a.className ++ ": " ++ msg)),
         ("message", .str msg),
         ("details", .str msg),
         ("orchestrator_info", .dict
           [("selected_agent", .str n), ("task_type", .str s.task_type),
            ("timestamp", .str "")])] := by
    simp only [stepExec, execute_task, getD, stepTask_task_type, Option.getD_some, hsel,
      agentExecute, hrun]
    simp [Val.truthy, htt]
    rfl
  have herr : isErrorStatus (stepExec agents queryV (ctxAfter agents queryV pre ctx) s) = true := by
    rw [hr]; rfl
  refine ⟨_, _,
    planLoop_fail_at agents queryV (pre ++ s :: post) pre s post 0 ctx [] [] hpre herr,
    error_response_lookup_status _ _ _, ?_, ?_⟩
  · rw [error_response_lookup_message, hr]
    rfl
  · rw [error_response_lookup_summary, hr]
    rfl

theorem c5_witness :
    ∃ res c,
      planLoop [("boom", boomAgent "kaboom")] (.str "x") [⟨"analysis", Option.none⟩]
          [⟨"analysis", Option.none⟩] 0 [] [] [] = .ok (res, c) ∧
      lookupD res "status" = some (.str "error") ∧
      lookupD res "message" = some (.str "kaboom") ∧
      lookupD res "summary" = some (.str "Error in BoomAgent: kaboom") :=
  c5_handler_fault_contained [("boom", boomAgent "kaboom")] (.str "x") [] []
    ⟨"analysis", Option.none⟩ [] "boom" (boomAgent "kaboom") [] "kaboom"
    rfl (by decide) rfl rfl

/-- Claim C6: every result returned by `execute_orchestration` — completed
path, every error path, any registry, any input — carries the four keys
`status`, `summary`, `query`, `agents_executed`; and when a handler's
`_execute_task` returns without a truthy summary, `BaseAgent.execute`
substitutes the non-empty default summary. -/
theorem c6_guaranteed_result_shape :
    (∀ (agents : Registry) (task : OTask), has4 (execute_orchestration agents task)) ∧
    (∀ (a : Agent) (task d : Dict),
      a.run task = .ok d → optTruthy (lookupD d "summary") = false →
      lookupD (agentExecute a task) "summary" = some (.str (defaultSummary task)) ∧
      defaultSummary task ≠ "") := by
  constructor
  · intro agents task
    simp only [execute_orchestration]
    split
    · exact has4_error_response _ _ _
    · next plan heq =>
        cases plan with
        | nil =>
            cases hpl : planLoop agents (getD (normalizeTask task) "query" (Val.str "")) [] []
                0 (normalizeTask task) [] [] with
            | ok rc =>
                obtain ⟨res, c⟩ := rc
                exact planLoop_has4 agents _ _ _ _ _ _ _ res c hpl
            | error e => exact has4_error_response _ _ _
        | cons s0 tl =>
            by_cases h0 : (s0.task_type == "error") = true
            · simp only [h0, if_true]
              exact has4_error_response _ _ _
            · simp only [h0, Bool.false_eq_true, if_false]
              cases hpl : planLoop agents (getD (normalizeTask task) "query" (Val.str ""))
                  (s0 :: tl) (s0 :: tl) 0 (normalizeTask task) [] [] with
              | ok rc =>
                  obtain ⟨res, c⟩ := rc
                  exact planLoop_has4 agents _ _ _ _ _ _ _ res c hpl
              | error e => exact has4_error_response _ _ _
  · intro a task d hrun hsum
    refine ⟨?_, defaultSummary_ne_empty task⟩
    unfold agentExecute
    rw [hrun]
    simp only [hsum, Bool.false_eq_true, if_false]
    by_cases hst :
        optTruthy (lookupD (setD d "summary" (.str (defaultSummary task))) "status") = true
    · rw [if_pos hst]
      exact lookupD_setD_self d "summary" _
    · rw [if_neg hst]
      rw [lookupD_setD_ne _ "status" "summary" _ (by decide)]
      exact lookupD_setD_self d "summary" _

theorem c6_witness :
    has4 (execute_orchestration defaultAgents (.ofStr "schedule a meeting tomorrow")) ∧
    lookupD (agentExecute quietAgent [("task_type", .str "analysis")]) "summary"
      = some (.str (defaultSummary [("task_type", .str "analysis")])) ∧
    defaultSummary [("task_type", .str "analysis")] ≠ "" :=
  ⟨c6_guaranteed_result_shape.1 defaultAgents (.ofStr "schedule a meeting tomorrow"),
   (c6_guaranteed_result_shape.2 quietAgent [("task_type", .str "analysis")] [] rfl rfl).1,
   (c6_guaranteed_result_shape.2 quietAgent [("task_type", .str "analysis")] [] rfl rfl).2⟩

/-- Claim C7: the execution context grows monotonically: (i) no key present
in the context is ever removed across any run of steps; (ii) every field of
a step's merged `results` is present in the context right after that step
(and stays present by (i)); (iii) merging overwrites same-named earlier
values with the later step's value. -/
theorem c7_monotonic_context :
    (∀ (agents : Registry) (queryV : Val) (steps : List Step) (ctx : Dict) (k : String),
      (lookupD ctx k).isSome = true →
      (lookupD (ctxAfter agents queryV steps ctx) k).isSome = true) ∧
    (∀ (agents : Registry) (queryV : Val) (ctx : Dict) (pre : List Step) (s : Step)
        (k : String) (r : Dict),
      lookupD (stepExec agents queryV (ctxAfter agents queryV pre ctx) s) "results"
        = some (.dict r) →
      (lookupD r k).isSome = true →
      (lookupD (ctxAfter agents queryV (pre ++ [s]) ctx) k).isSome = true) ∧
    (∀ (d e : Dict) (k : String) (v : Val),
      (e.map Prod.fst).Nodup → lookupD e k = some v →
      lookupD (updateD d e) k = some v) := by
  refine ⟨?_, ?_, fun d e k v => lookupD_updateD_of_mem e d k v⟩
  · intro agents queryV steps
    induction steps with
    | nil => intro ctx k h; exact h
    | cons s rest ih =>
        intro ctx k h
        exact ih (stepMergeD ctx (stepExec agents queryV ctx s)) k
          (isSome_lookupD_stepMergeD _ _ k h)
  · intro agents queryV ctx pre s k r hres hk
    have hne : r ≠ [] := by
      intro h0
      subst h0
      simp [lookupD] at hk
    have ht : Val.truthy (.dict r) = true := by
      simp only [Val.truthy, Bool.not_eq_true']
      exact List.isEmpty_eq_false.mpr hne
    rw [ctxAfter_append]
    show (lookupD (ctxAfter agents queryV [s] (ctxAfter agents queryV pre ctx)) k).isSome = true
    simp only [ctxAfter, stepMergeD, afterStep, hres, ht, if_true, Option.getD_some]
    exact isSome_lookupD_updateD_right r _ k hk

theorem c7_witness :
    (lookupD (ctxAfter defaultAgents (.str "q") [⟨"web_research", Option.none⟩]
        [("keep", .str "x")]) "keep").isSome = true ∧
    (lookupD (ctxAfter defaultAgents (.str "look up ai")
        ([] ++ [⟨"web_research", Option.none⟩]) [("query", .str "look up ai")])
        "sources").isSome = true ∧
    lookupD (updateD [("a", .str "1")] [("a", .str "2"), ("b", .str "3")]) "a"
      = some (.str "2") :=
  ⟨c7_monotonic_context.1 defaultAgents (.str "q") [⟨"web_research", Option.none⟩]
      [("keep", .str "x")] "keep" rfl,
   c7_monotonic_context.2.1 defaultAgents (.str "look up ai") [("query", .str "look up ai")]
      [] ⟨"web_research", Option.none⟩ "sources"
      [("sources", .list [.str "Source 1", .str "Source 2", .str "Source 3"]),
       ("key_findings", .list
         [.str "AI automation market growing at 30% CAGR",
          .str "Key players include Microsoft, Google, Amazon",
          .str "Market size expected to reach $50B by 2025"])]
      rfl rfl,
   c7_monotonic_context.2.2 [("a", .str "1")] [("a", .str "2"), ("b", .str "3")] "a"
      (.str "2") (by decide) rfl⟩
